import Mathlib

/-!
Verification of `openvpn/addr/ip.hpp`: the version-polymorphic IP address
value type `openvpn::IP::Addr` (tagged union over an unspecified state, an
IPv4 value and an IPv6 value), with parsing, canonical rendering and
bitwise AND/OR used for netmask arithmetic.

The leaf collaborators (`IPv4::Addr` in `openvpn/addr/ipv4.hpp`,
`IPv6::Addr` in `openvpn/addr/ipv6.hpp`) and the external text
parser/renderer (`boost::asio::ip::address`) are not part of the sources
under verification; they are modelled from the spec as fixed-width values
with per-bit AND/OR, an all-zero "unspecified" check, dotted-quad (v4) and
colon-hex (v6) text forms, and a generic address representation that
classifies itself as v4-concrete, v6-concrete or neither.

C++ exceptions are modelled with `Except Err`; the in-place mutation of
`reset_ipv4_from_uint32` is modelled by explicit state passing (the method
returns the new state of the object).
-/

namespace OpenVPN

/-- Splits a character list at every occurrence of `sep`; the separators are
dropped and empty runs are kept (so a leading, trailing or doubled separator
yields an empty group), matching the usual text-splitting semantics. -/
def splitOnChar (sep : Char) : List Char → List (List Char)
  | [] => [[]]
  | c :: cs =>
    match splitOnChar sep cs with
    | [] => if c = sep then [[], []] else [[c]]
    | g :: gs => if c = sep then [] :: g :: gs else (c :: g) :: gs

/-- Maps a fallible function over a list, failing as soon as one element
fails. -/
def mapOption {α β : Type} (f : α → Option β) : List α → Option (List β)
  | [] => some []
  | a :: as =>
    match f a, mapOption f as with
    | some b, some bs => some (b :: bs)
    | _, _ => none

namespace IPv4

/-- Modelled from the spec: the "IPv4 address value" capability
(`openvpn/addr/ipv4.hpp`, not among the sources under verification): a
32-bit fixed-width value supporting construction from a 32-bit host-order
integer, per-bit AND/OR, an all-zero unspecified check, and dotted-quad
text rendering. -/
structure Addr where
  value : Nat
deriving DecidableEq, Repr

/-- Modelled from the spec: `IPv4::Addr::from_uint32`, construction from a
32-bit host-order integer (reduced to 32 bits). -/
def Addr.from_uint32 (raw : Nat) : Addr :=
  ⟨raw % 4294967296⟩

/-- Modelled from the spec: per-bit AND of two IPv4 values. -/
def Addr.land (a b : Addr) : Addr :=
  ⟨a.value &&& b.value⟩

/-- Modelled from the spec: per-bit OR of two IPv4 values. -/
def Addr.lor (a b : Addr) : Addr :=
  ⟨a.value ||| b.value⟩

/-- Modelled from the spec: the all-zero/unspecified sentinel check of the
IPv4 family. -/
def Addr.unspecified (a : Addr) : Bool :=
  a.value == 0

/-- Modelled from the spec: dotted-quad text rendering of an IPv4 value
(four decimal octets, most significant first, separated by dots). -/
def render (a : Addr) : String :=
  toString (a.value / 16777216 % 256) ++ "." ++ toString (a.value / 65536 % 256) ++ "."
    ++ toString (a.value / 256 % 256) ++ "." ++ toString (a.value % 256)

/-- A dotted-quad octet: one to three decimal digits with value at most
255. -/
def decOctet (g : List Char) : Option Nat :=
  if g = [] ∨ 3 < g.length then none
  else if g.all Char.isDigit then
    let n := g.foldl (fun acc c => acc * 10 + (c.toNat - 48)) 0
    if n ≤ 255 then some n else none
  else none

/-- Modelled from the spec: the external parser's dotted-quad grammar —
exactly four dot-separated decimal octets. -/
def parse (s : String) : Option Addr :=
  match mapOption decOctet (splitOnChar '.' s.toList) with
  | some [a, b, c, d] => some ⟨((a * 256 + b) * 256 + c) * 256 + d⟩
  | _ => none

end IPv4

namespace IPv6

/-- Modelled from the spec: the "IPv6 address value" capability
(`openvpn/addr/ipv6.hpp`, not among the sources under verification): a
128-bit fixed-width value supporting per-bit AND/OR, an all-zero
unspecified check, and colon-hex text rendering. -/
structure Addr where
  value : Nat
deriving DecidableEq, Repr

/-- Modelled from the spec: per-bit AND of two IPv6 values. -/
def Addr.land (a b : Addr) : Addr :=
  ⟨a.value &&& b.value⟩

/-- Modelled from the spec: per-bit OR of two IPv6 values. -/
def Addr.lor (a b : Addr) : Addr :=
  ⟨a.value ||| b.value⟩

/-- Modelled from the spec: the all-zero/unspecified sentinel check of the
IPv6 family. -/
def Addr.unspecified (a : Addr) : Bool :=
  a.value == 0

/-- Lowercase hexadecimal rendering of a number. -/
def hexStr (n : Nat) : String :=
  String.mk (Nat.toDigits 16 n)

/-- Modelled from the spec: colon-hex text rendering of an IPv6 value —
eight 16-bit groups in lowercase hexadecimal, most significant first,
separated by colons. -/
def render (a : Addr) : String :=
  String.intercalate ":"
    ((List.range 8).map (fun i => hexStr (a.value / 2 ^ (16 * (7 - i)) % 65536)))

/-- The value of one hexadecimal digit, if the character is one. -/
def hexDigitVal (c : Char) : Option Nat :=
  if '0' ≤ c ∧ c ≤ '9' then some (c.toNat - 48)
  else if 'a' ≤ c ∧ c ≤ 'f' then some (c.toNat - 87)
  else if 'A' ≤ c ∧ c ≤ 'F' then some (c.toNat - 55)
  else none

/-- A colon-hex group: one to four hexadecimal digits. -/
def hexGroup (g : List Char) : Option Nat :=
  if g = [] ∨ 4 < g.length then none
  else (mapOption hexDigitVal g).map (fun ds => ds.foldl (fun acc d => acc * 16 + d) 0)

/-- Modelled from the spec: the external parser's colon-hex grammar —
exactly eight colon-separated hexadecimal groups. -/
def parse (s : String) : Option Addr :=
  match mapOption hexGroup (splitOnChar ':' s.toList) with
  | some gs => if gs.length = 8 then some ⟨gs.foldl (fun acc g => acc * 65536 + g) 0⟩ else none
  | none => none

end IPv6

namespace IP

/-- Modelled from the spec: the external generic address representation
(`boost::asio::ip::address`), "an external type capable of classifying
itself as v4-concrete, v6-concrete, or neither". -/
inductive GenericAddress where
  | v4 (a : IPv4.Addr)
  | v6 (a : IPv6.Addr)
  | neither
deriving DecidableEq, Repr

/-- Modelled from the spec: the generic value's v4-concrete classification
(`boost::asio::ip::address::is_v4`). -/
def GenericAddress.is_v4 : GenericAddress → Bool
  | .v4 _ => true
  | _ => false

/-- Modelled from the spec: the generic value's v6-concrete classification
(`boost::asio::ip::address::is_v6`). -/
def GenericAddress.is_v6 : GenericAddress → Bool
  | .v6 _ => true
  | _ => false

/-- Modelled from the spec: extraction of the v4 value from a v4-concrete
generic address (`addr.to_v4()` composed with `IPv4::Addr::from_asio`);
meaningful only when `is_v4` holds, which is the only guard under which the
code calls it. -/
def GenericAddress.to_v4 : GenericAddress → IPv4.Addr
  | .v4 a => a
  | _ => ⟨0⟩

/-- Modelled from the spec: extraction of the v6 value from a v6-concrete
generic address (`addr.to_v6()` composed with `IPv6::Addr::from_asio`);
meaningful only when `is_v6` holds. -/
def GenericAddress.to_v6 : GenericAddress → IPv6.Addr
  | .v6 a => a
  | _ => ⟨0⟩

/-- Modelled from the spec: the external text parser
(`boost::asio::ip::address::from_string`): classifies the text as
dotted-quad v4 or colon-hex v6 and returns the corresponding concrete
generic address, or nothing (an error code) when the text is neither. -/
def parseAddress (s : String) : Option GenericAddress :=
  match IPv4.parse s with
  | some a => some (GenericAddress.v4 a)
  | none =>
    match IPv6.parse s with
    | some a => some (GenericAddress.v6 a)
    | none => none

/-- Modelled from the spec: the external renderer
(`boost::asio::ip::address::to_string(ec)`): renders a concrete generic
address to its canonical text, reporting an error (`none`) only for a
non-concrete value. -/
def asioRender : GenericAddress → Option String
  | .v4 a => some (IPv4.render a)
  | .v6 a => some (IPv6.render a)
  | .neither => none

/-- The exception kinds declared at the top of `ip.hpp`.
`ip_parse_exception` is declared with `OPENVPN_EXCEPTION` and carries a
message; the code builds it from the caller-supplied title and the
offending text (the parser's own message is external and not modelled). -/
inductive Err where
  | ip_addr_unspecified
  | ip_addr_version_inconsistency
  | ip_render_exception
  | ip_parse_exception (title : String) (ipstr : String)
deriving DecidableEq, Repr

/-- The tag enumeration `Addr::Version { UNSPEC, V4, V6 }`. -/
inductive Version where
  | UNSPEC
  | V4
  | V6
deriving DecidableEq, Repr

/-- The union-plus-tag representation of `IP::Addr`: exactly one variant is
active at any time, so the pair of the tag `ver` and the active member of
the union `u` is modelled as a sum type. -/
inductive Addr where
  | unspec
  | v4 (a : IPv4.Addr)
  | v6 (a : IPv6.Addr)
deriving DecidableEq, Repr

/-- The tag field `ver` of an `Addr`. -/
def Addr.ver : Addr → Version
  | .unspec => Version.UNSPEC
  | .v4 _ => Version.V4
  | .v6 _ => Version.V6

/-- The union member `u.v4`; the C++ code reads it only when the tag is
known to be `V4` (reading the inactive member of a union is not defined;
modelled by a fixed arbitrary value). -/
def Addr.getV4 : Addr → IPv4.Addr
  | .v4 x => x
  | _ => ⟨0⟩

/-- The union member `u.v6`; the C++ code reads it only when the tag is
known to be `V6`. -/
def Addr.getV6 : Addr → IPv6.Addr
  | .v6 x => x
  | _ => ⟨0⟩

/-- `Addr::Addr()`: the default constructor sets `ver = UNSPEC`. -/
def Addr.default : Addr :=
  Addr.unspec

/-- `Addr::from_ipv4`: wraps an IPv4 value, setting the tag to `V4`. -/
def Addr.from_ipv4 (addr : IPv4.Addr) : Addr :=
  Addr.v4 addr

/-- `Addr::from_ipv6`: wraps an IPv6 value, setting the tag to `V6`. -/
def Addr.from_ipv6 (addr : IPv6.Addr) : Addr :=
  Addr.v6 addr

/-- `Addr::from_asio`: converts the external generic representation into
the tagged form, dispatching on the generic value's own classification;
throws `ip_addr_unspecified` when it is neither v4 nor v6. -/
def Addr.from_asio (addr : GenericAddress) : Except Err Addr :=
  if addr.is_v4 then Except.ok (Addr.v4 addr.to_v4)
  else if addr.is_v6 then Except.ok (Addr.v6 addr.to_v6)
  else Except.error Err.ip_addr_unspecified

/-- `Addr::to_asio`: converts the tagged form back to the generic
representation; throws `ip_addr_unspecified` on the `UNSPEC` tag. -/
def Addr.to_asio : Addr → Except Err GenericAddress
  | .v4 x => Except.ok (GenericAddress.v4 x)
  | .v6 x => Except.ok (GenericAddress.v6 x)
  | .unspec => Except.error Err.ip_addr_unspecified

/-- `Addr::from_string`: parses with the external parser; on failure throws
`ip_parse_exception` built from the title (the null default becomes the
empty string) and the offending text; on success delegates to
`from_asio`. -/
def Addr.from_string (ipstr : String) (title : Option String) : Except Err Addr :=
  match parseAddress ipstr with
  | none => Except.error (Err.ip_parse_exception (title.getD "") ipstr)
  | some a => Addr.from_asio a

/-- `Addr::to_string`, abstracted over the external renderer `r` so that
the renderer-failure path can be stated: for a non-`UNSPEC` tag it converts
to the generic form, renders, and throws `ip_render_exception` when the
renderer reports an error; for `UNSPEC` it returns the literal
`"UNSPEC"`. -/
def Addr.to_stringWith (r : GenericAddress → Option String) (a : Addr) : Except Err String :=
  if a.ver ≠ Version.UNSPEC then
    match a.to_asio with
    | Except.ok g =>
      match r g with
      | some ret => Except.ok ret
      | none => Except.error Err.ip_render_exception
    | Except.error e => Except.error e
  else
    Except.ok "UNSPEC"

/-- `Addr::to_string`: the concrete rendering, using the modelled external
renderer. -/
def Addr.to_string (a : Addr) : Except Err String :=
  Addr.to_stringWith asioRender a

/-- `Addr::validate`: parses then re-renders to canonical text. -/
def Addr.validate (ipstr : String) (title : Option String) : Except Err String :=
  Except.bind (Addr.from_string ipstr title) (fun a => Addr.to_string a)

/-- `Addr::operator&`: requires equal tags (else
`ip_addr_version_inconsistency`), then dispatches on the receiver's tag,
combining the two active union members per-bit; the `UNSPEC` default case
throws `ip_addr_unspecified`. -/
def Addr.and (a other : Addr) : Except Err Addr :=
  if a.ver ≠ other.ver then Except.error Err.ip_addr_version_inconsistency
  else
    match a with
    | .v4 x => Except.ok (Addr.v4 (IPv4.Addr.land x other.getV4))
    | .v6 x => Except.ok (Addr.v6 (IPv6.Addr.land x other.getV6))
    | .unspec => Except.error Err.ip_addr_unspecified

/-- `Addr::operator|`: same structure as `operator&` with per-bit OR. -/
def Addr.or (a other : Addr) : Except Err Addr :=
  if a.ver ≠ other.ver then Except.error Err.ip_addr_version_inconsistency
  else
    match a with
    | .v4 x => Except.ok (Addr.v4 (IPv4.Addr.lor x other.getV4))
    | .v6 x => Except.ok (Addr.v6 (IPv6.Addr.lor x other.getV6))
    | .unspec => Except.error Err.ip_addr_unspecified

/-- `Addr::reset_ipv4_from_uint32`: overwrites the tag with `V4` and the
union member with the value built from the 32-bit integer; the mutated
object replaces the previous state `a`, which is discarded entirely. -/
def Addr.reset_ipv4_from_uint32 (_a : Addr) (addr : Nat) : Addr :=
  Addr.v4 (IPv4.Addr.from_uint32 addr)

/-- `Addr::unspecified`: dispatches on the tag, delegating to the wrapped
value's own unspecified check; the default (`UNSPEC`) case returns
`true`. -/
def Addr.unspecified : Addr → Bool
  | .v4 x => IPv4.Addr.unspecified x
  | .v6 x => IPv6.Addr.unspecified x
  | .unspec => true

/-- `AddrMaskPair`: an address paired with a netmask. -/
structure AddrMaskPair where
  addr : Addr
  netmask : Addr

/-- `AddrMaskPair::to_string`: renders `"<addr>/<netmask>"` from the two
members' own renderings (each of which can throw). -/
def AddrMaskPair.to_string (p : AddrMaskPair) : Except Err String :=
  Except.bind (Addr.to_string p.addr) (fun a =>
    Except.bind (Addr.to_string p.netmask) (fun m =>
      Except.ok (a ++ "/" ++ m)))

/-- Modelled from the spec: `normalized(s)`, the canonical rendering of a
valid address text — the external renderer applied to the external
parser's result. -/
def normalized (s : String) : Option String :=
  Option.bind (parseAddress s) asioRender

/-- Decidable equality on `Except`, so that concrete runs of the fallible
operations can be checked by `decide`. -/
def exceptDecEq {ε α : Type} [DecidableEq ε] [DecidableEq α] :
    (a b : Except ε α) → Decidable (a = b)
  | Except.error x, Except.error y =>
    if h : x = y then Decidable.isTrue (by rw [h])
    else Decidable.isFalse (fun hh => h (Except.error.inj hh))
  | Except.error _, Except.ok _ => Decidable.isFalse (fun hh => Except.noConfusion hh)
  | Except.ok _, Except.error _ => Decidable.isFalse (fun hh => Except.noConfusion hh)
  | Except.ok x, Except.ok y =>
    if h : x = y then Decidable.isTrue (by rw [h])
    else Decidable.isFalse (fun hh => h (Except.ok.inj hh))

instance {ε α : Type} [DecidableEq ε] [DecidableEq α] : DecidableEq (Except ε α) :=
  exceptDecEq

end IP

end OpenVPN

namespace OpenVPN.IP

/-- `Except.bind` on a success applies the continuation. -/
theorem except_bind_ok {ε α β : Type} (x : α) (f : α → Except ε β) :
    Except.bind (Except.ok x) f = f x :=
  rfl

/-- `Except.bind` on a failure propagates it. -/
theorem except_bind_error {ε α β : Type} (e : ε) (f : α → Except ε β) :
    Except.bind (Except.error e) f = Except.error e :=
  rfl

/-- Re-applying the second operand of a per-bit AND changes nothing. -/
theorem and_reapply (x y : Nat) : x &&& y &&& y = x &&& y := by
  apply Nat.eq_of_testBit_eq
  intro i
  simp only [Nat.testBit_and]
  cases Nat.testBit x i <;> cases Nat.testBit y i <;> rfl

/-- Re-applying the second operand of a per-bit OR changes nothing. -/
theorem or_reapply (x y : Nat) : x ||| y ||| y = x ||| y := by
  apply Nat.eq_of_testBit_eq
  intro i
  simp only [Nat.testBit_or]
  cases Nat.testBit x i <;> cases Nat.testBit y i <;> rfl

/-- C1, counterexample: with an `Unspecified` receiver and a `V4` argument the
tags differ, so both bitwise operations fail with the version-mismatch error —
not with the unspecified-address error that the claim, as stated, assigns to
every `Unspecified` receiver. -/
theorem c1_counterexample :
    Addr.and Addr.default (Addr.from_ipv4 ⟨1⟩) = Except.error Err.ip_addr_version_inconsistency ∧
    Addr.and Addr.default (Addr.from_ipv4 ⟨1⟩) ≠ Except.error Err.ip_addr_unspecified ∧
    Addr.or Addr.default (Addr.from_ipv4 ⟨1⟩) = Except.error Err.ip_addr_version_inconsistency ∧
    Addr.or Addr.default (Addr.from_ipv4 ⟨1⟩) ≠ Except.error Err.ip_addr_unspecified := by
  decide

/-- C1 (amended): bitwise AND and OR fail with `VersionMismatchError`
whenever the two operands' variant tags differ, and fail with
`UnspecifiedAddressError` when the receiver's tag is `Unspecified` and the
argument's tag matches it (equivalently, when both operands are
`Unspecified`); in particular a `V4` receiver with a `V6` argument raises
`VersionMismatchError` and two default-constructed operands raise
`UnspecifiedAddressError`. -/
theorem c1_bitwise_error_conditions (a b : Addr) :
    (a.ver ≠ b.ver →
      Addr.and a b = Except.error Err.ip_addr_version_inconsistency ∧
      Addr.or a b = Except.error Err.ip_addr_version_inconsistency) ∧
    (a.ver = Version.UNSPEC → a.ver = b.ver →
      Addr.and a b = Except.error Err.ip_addr_unspecified ∧
      Addr.or a b = Except.error Err.ip_addr_unspecified) := by
  cases a <;> cases b <;> simp [Addr.and, Addr.or, Addr.ver]

/-- C1, witness: the amended error conditions at concrete inputs — a `V4`
receiver with a `V6` argument, and two default-constructed operands. -/
theorem c1_witness :
    (Addr.and (Addr.from_ipv4 ⟨3⟩) (Addr.from_ipv6 ⟨5⟩) = Except.error Err.ip_addr_version_inconsistency ∧
      Addr.or (Addr.from_ipv4 ⟨3⟩) (Addr.from_ipv6 ⟨5⟩) = Except.error Err.ip_addr_version_inconsistency) ∧
    (Addr.and Addr.default Addr.default = Except.error Err.ip_addr_unspecified ∧
      Addr.or Addr.default Addr.default = Except.error Err.ip_addr_unspecified) :=
  ⟨(c1_bitwise_error_conditions (Addr.from_ipv4 ⟨3⟩) (Addr.from_ipv6 ⟨5⟩)).1 (by decide),
   (c1_bitwise_error_conditions Addr.default Addr.default).2 rfl rfl⟩

/-- C3: the tag-equality check takes precedence over the concreteness check —
with differing tags both bitwise operations raise the version-mismatch error
even when one operand is `Unspecified`, and the unspecified-address error is
raised exactly when both operands' tags are `Unspecified`. -/
theorem c3_mismatch_precedence (a b : Addr) :
    (a.ver ≠ b.ver →
      Addr.and a b = Except.error Err.ip_addr_version_inconsistency ∧
      Addr.or a b = Except.error Err.ip_addr_version_inconsistency) ∧
    (Addr.and a b = Except.error Err.ip_addr_unspecified ↔
      a.ver = Version.UNSPEC ∧ b.ver = Version.UNSPEC) ∧
    (Addr.or a b = Except.error Err.ip_addr_unspecified ↔
      a.ver = Version.UNSPEC ∧ b.ver = Version.UNSPEC) := by
  cases a <;> cases b <;> simp [Addr.and, Addr.or, Addr.ver]

/-- C3, witness: an `Unspecified` receiver with a `V4` argument, and a `V6`
receiver with an `Unspecified` argument, both raise the version-mismatch
error. -/
theorem c3_witness :
    Addr.and Addr.default (Addr.from_ipv4 ⟨9⟩) = Except.error Err.ip_addr_version_inconsistency ∧
    Addr.or (Addr.from_ipv6 ⟨9⟩) Addr.default = Except.error Err.ip_addr_version_inconsistency :=
  ⟨((c3_mismatch_precedence Addr.default (Addr.from_ipv4 ⟨9⟩)).1 (by decide)).1,
   ((c3_mismatch_precedence (Addr.from_ipv6 ⟨9⟩) Addr.default).1 (by decide)).2⟩

/-- C2: on two `V4`-tagged (resp. `V6`-tagged) operands both bitwise
operations succeed, the result carries the same tag and its underlying value
is the per-bit AND (resp. OR) of the two operands' fixed-width values
(characterized bit by bit), and the concrete netmask scenario
`192.168.1.10 AND 255.255.255.0 = 192.168.1.0` holds. -/
theorem c2_same_family_bitwise :
    (∀ x y : IPv4.Addr,
      Addr.and (Addr.from_ipv4 x) (Addr.from_ipv4 y) = Except.ok (Addr.from_ipv4 (IPv4.Addr.land x y)) ∧
      Addr.or (Addr.from_ipv4 x) (Addr.from_ipv4 y) = Except.ok (Addr.from_ipv4 (IPv4.Addr.lor x y))) ∧
    (∀ x y : IPv6.Addr,
      Addr.and (Addr.from_ipv6 x) (Addr.from_ipv6 y) = Except.ok (Addr.from_ipv6 (IPv6.Addr.land x y)) ∧
      Addr.or (Addr.from_ipv6 x) (Addr.from_ipv6 y) = Except.ok (Addr.from_ipv6 (IPv6.Addr.lor x y))) ∧
    (∀ (x y : IPv4.Addr) (i : Nat),
      (IPv4.Addr.land x y).value.testBit i = (x.value.testBit i && y.value.testBit i) ∧
      (IPv4.Addr.lor x y).value.testBit i = (x.value.testBit i || y.value.testBit i)) ∧
    (∀ (x y : IPv6.Addr) (i : Nat),
      (IPv6.Addr.land x y).value.testBit i = (x.value.testBit i && y.value.testBit i) ∧
      (IPv6.Addr.lor x y).value.testBit i = (x.value.testBit i || y.value.testBit i)) ∧
    Except.bind (Addr.from_string "192.168.1.10" none) (fun a =>
      Except.bind (Addr.from_string "255.255.255.0" none) (fun m =>
        Except.bind (Addr.and a m) Addr.to_string)) = Except.ok "192.168.1.0" := by
  refine ⟨?_, ?_, ?_, ?_, by decide⟩
  · intro x y
    exact ⟨rfl, rfl⟩
  · intro x y
    exact ⟨rfl, rfl⟩
  · intro x y i
    constructor <;> simp [IPv4.Addr.land, IPv4.Addr.lor]
  · intro x y i
    constructor <;> simp [IPv6.Addr.land, IPv6.Addr.lor]

/-- C10: for concrete operands of the same family, re-applying the second
operand is idempotent: `(a AND b) AND b = a AND b` and
`(a OR b) OR b = a OR b`. -/
theorem c10_reapply_idempotent (a b : Addr) (hv : a.ver = b.ver)
    (hc : a.ver ≠ Version.UNSPEC) :
    Except.bind (Addr.and a b) (fun r => Addr.and r b) = Addr.and a b ∧
    Except.bind (Addr.or a b) (fun r => Addr.or r b) = Addr.or a b := by
  cases a <;> cases b <;>
    simp_all [Addr.and, Addr.or, Addr.ver, Addr.getV4, Addr.getV6,
      IPv4.Addr.land, IPv4.Addr.lor, IPv6.Addr.land, IPv6.Addr.lor,
      except_bind_ok, and_reapply, or_reapply]

/-- C10, witness: the idempotence at two concrete `V4` operands. -/
theorem c10_witness :
    Except.bind (Addr.and (Addr.v4 ⟨12⟩) (Addr.v4 ⟨10⟩)) (fun r => Addr.and r (Addr.v4 ⟨10⟩)) =
      Addr.and (Addr.v4 ⟨12⟩) (Addr.v4 ⟨10⟩) ∧
    Except.bind (Addr.or (Addr.v4 ⟨12⟩) (Addr.v4 ⟨10⟩)) (fun r => Addr.or r (Addr.v4 ⟨10⟩)) =
      Addr.or (Addr.v4 ⟨12⟩) (Addr.v4 ⟨10⟩) :=
  c10_reapply_idempotent (Addr.v4 ⟨12⟩) (Addr.v4 ⟨10⟩) rfl (by decide)

/-- Parsing then rendering, in one equation: the composition of
`from_string` and `to_string` returns exactly the normalized text of the
input when the external parser accepts it, and the parse error carrying the
defaulted title and the offending text when it rejects it. -/
theorem from_string_to_string (s : String) (t : Option String) :
    Except.bind (Addr.from_string s t) Addr.to_string =
      (match normalized s with
       | some n => Except.ok n
       | none => Except.error (Err.ip_parse_exception (t.getD "") s)) := by
  unfold Addr.from_string normalized parseAddress
  cases h4 : IPv4.parse s with
  | some x =>
    simp [Addr.from_asio, GenericAddress.is_v4, GenericAddress.to_v4, asioRender,
      Addr.to_string, Addr.to_stringWith, Addr.ver, Addr.to_asio, except_bind_ok, Option.bind]
  | none =>
    cases h6 : IPv6.parse s with
    | some x =>
      simp [Addr.from_asio, GenericAddress.is_v4, GenericAddress.is_v6, GenericAddress.to_v6,
        asioRender, Addr.to_string, Addr.to_stringWith, Addr.ver, Addr.to_asio, except_bind_ok,
        Option.bind]
    | none => simp [except_bind_error, Option.bind]

/-- C4: for every text the external parser accepts (whether as v4 or as v6),
`from_string` succeeds and rendering the result returns exactly the canonical
(normalized) form of the text. -/
theorem c4_round_trip (s n : String) (h : normalized s = some n) :
    ∃ a, Addr.from_string s none = Except.ok a ∧ Addr.to_string a = Except.ok n := by
  have key := from_string_to_string s none
  rw [h] at key
  cases hf : Addr.from_string s none with
  | error e =>
    rw [hf, except_bind_error] at key
    exact Except.noConfusion key
  | ok a =>
    rw [hf, except_bind_ok] at key
    exact ⟨a, rfl, key⟩

/-- C4, witness: a v4 round trip and a v6 round trip at concrete texts (the
v6 text is normalized to lowercase hexadecimal). -/
theorem c4_witness :
    (∃ a, Addr.from_string "10.0.0.5" none = Except.ok a ∧
      Addr.to_string a = Except.ok "10.0.0.5") ∧
    (∃ a, Addr.from_string "FE80:0:0:0:0:0:0:1" none = Except.ok a ∧
      Addr.to_string a = Except.ok "fe80:0:0:0:0:0:0:1") :=
  ⟨c4_round_trip "10.0.0.5" "10.0.0.5" (by decide),
   c4_round_trip "FE80:0:0:0:0:0:0:1" "fe80:0:0:0:0:0:0:1" (by decide)⟩

/-- C5: `to_string` returns the literal `"UNSPEC"` on the `Unspecified` tag;
on a concrete tag the conversion to the generic form always succeeds, and the
operation fails with the render error exactly when the renderer reports an
error, returning the renderer's output otherwise — stated for an arbitrary
renderer `r`, with the concrete `to_string` being the instantiation at the
modelled external renderer. -/
theorem c5_to_string (r : GenericAddress → Option String) (a : Addr) :
    (a.ver = Version.UNSPEC → Addr.to_stringWith r a = Except.ok "UNSPEC") ∧
    (a.ver ≠ Version.UNSPEC → ∃ g, Addr.to_asio a = Except.ok g) ∧
    (∀ g, Addr.to_asio a = Except.ok g →
      (Addr.to_stringWith r a = Except.error Err.ip_render_exception ↔ r g = none)) ∧
    (∀ g ret, Addr.to_asio a = Except.ok g → r g = some ret →
      Addr.to_stringWith r a = Except.ok ret) ∧
    Addr.to_string a = Addr.to_stringWith asioRender a := by
  cases a with
  | unspec =>
    refine ⟨fun _ => rfl, fun h => absurd rfl h, ?_, ?_, rfl⟩
    · intro g hg
      exact Except.noConfusion hg
    · intro g ret hg _
      exact Except.noConfusion hg
  | v4 x =>
    refine ⟨fun h => Version.noConfusion h, fun _ => ⟨GenericAddress.v4 x, rfl⟩, ?_, ?_, rfl⟩
    · intro g hg
      injection hg with hg
      subst hg
      unfold Addr.to_stringWith
      cases hr : r (GenericAddress.v4 x) <;> simp [Addr.ver, Addr.to_asio, hr]
    · intro g ret hg hr
      injection hg with hg
      subst hg
      unfold Addr.to_stringWith
      simp [Addr.ver, Addr.to_asio, hr]
  | v6 x =>
    refine ⟨fun h => Version.noConfusion h, fun _ => ⟨GenericAddress.v6 x, rfl⟩, ?_, ?_, rfl⟩
    · intro g hg
      injection hg with hg
      subst hg
      unfold Addr.to_stringWith
      cases hr : r (GenericAddress.v6 x) <;> simp [Addr.ver, Addr.to_asio, hr]
    · intro g ret hg hr
      injection hg with hg
      subst hg
      unfold Addr.to_stringWith
      simp [Addr.ver, Addr.to_asio, hr]

/-- C5, witness: a failing renderer on a concrete `V4` value produces the
render error, and the unspecified variant renders to the literal
`"UNSPEC"`. -/
theorem c5_witness :
    Addr.to_stringWith (fun _ => none) (Addr.from_ipv4 ⟨7⟩) =
      Except.error Err.ip_render_exception ∧
    Addr.to_stringWith asioRender Addr.default = Except.ok "UNSPEC" :=
  ⟨((c5_to_string (fun _ => none) (Addr.from_ipv4 ⟨7⟩)).2.2.1
      (GenericAddress.v4 ⟨7⟩) rfl).mpr rfl,
   (c5_to_string asioRender Addr.default).1 rfl⟩

/-- C6: `validate` is exactly parse-then-render — it equals the composition
of `from_string` and `to_string`; `from_string` fails with the parse error
carrying the offending text and the defaulted label exactly when the external
parser rejects the text; and on any text the parser accepts, `validate`
returns its canonical rendering. -/
theorem c6_validate (s : String) (t : Option String) :
    Addr.validate s t = Except.bind (Addr.from_string s t) Addr.to_string ∧
    (Addr.from_string s t = Except.error (Err.ip_parse_exception (t.getD "") s) ↔
      parseAddress s = none) ∧
    (∀ n, normalized s = some n → Addr.validate s t = Except.ok n) := by
  refine ⟨rfl, ⟨?_, ?_⟩, ?_⟩
  · intro h
    cases hp : parseAddress s with
    | none => rfl
    | some g =>
      unfold Addr.from_string at h
      rw [hp] at h
      cases g with
      | v4 x =>
        exact absurd h (by simp [Addr.from_asio, GenericAddress.is_v4])
      | v6 x =>
        exact absurd h (by simp [Addr.from_asio, GenericAddress.is_v4, GenericAddress.is_v6])
      | neither =>
        exact absurd h (by simp [Addr.from_asio, GenericAddress.is_v4, GenericAddress.is_v6])
  · intro h
    unfold Addr.from_string
    rw [h]
  · intro n h
    have key := from_string_to_string s t
    rw [h] at key
    exact key

/-- C6, witness: the text `"not-an-ip"` fails with the parse error carrying
the text and the empty defaulted label, and a valid text validates to its
canonical form. -/
theorem c6_witness :
    Addr.from_string "not-an-ip" none =
      Except.error (Err.ip_parse_exception "" "not-an-ip") ∧
    Addr.validate "192.168.0.1" (some "remote") = Except.ok "192.168.0.1" :=
  ⟨((c6_validate "not-an-ip" none).2.1).mpr (by decide),
   (c6_validate "192.168.0.1" (some "remote")).2.2 "192.168.0.1" (by decide)⟩

/-- C7: `from_asio` fails with the unspecified-address error exactly when the
generic value classifies as neither v4-concrete nor v6-concrete, and
otherwise returns the `Addr` tagged with the generic value's family;
conversely `to_asio` fails with the unspecified-address error exactly on the
`Unspecified` tag and otherwise returns the generic form of the wrapped
value. -/
theorem c7_generic_conversions (g : GenericAddress) (a : Addr) :
    (Addr.from_asio g = Except.error Err.ip_addr_unspecified ↔
      g.is_v4 = false ∧ g.is_v6 = false) ∧
    (∀ x, g = GenericAddress.v4 x → Addr.from_asio g = Except.ok (Addr.v4 x)) ∧
    (∀ x, g = GenericAddress.v6 x → Addr.from_asio g = Except.ok (Addr.v6 x)) ∧
    (Addr.to_asio a = Except.error Err.ip_addr_unspecified ↔ a.ver = Version.UNSPEC) ∧
    (∀ x, a = Addr.v4 x → Addr.to_asio a = Except.ok (GenericAddress.v4 x)) ∧
    (∀ x, a = Addr.v6 x → Addr.to_asio a = Except.ok (GenericAddress.v6 x)) := by
  cases g <;> cases a <;>
    simp [Addr.from_asio, Addr.to_asio, Addr.ver, GenericAddress.is_v4,
      GenericAddress.is_v6, GenericAddress.to_v4, GenericAddress.to_v6]

/-- C7, witness: the non-concrete generic value fails to convert, a concrete
one converts to the matching tag, and the `Unspecified` variant fails to
convert back. -/
theorem c7_witness :
    Addr.from_asio GenericAddress.neither = Except.error Err.ip_addr_unspecified ∧
    Addr.from_asio (GenericAddress.v4 ⟨5⟩) = Except.ok (Addr.v4 ⟨5⟩) ∧
    Addr.to_asio Addr.default = Except.error Err.ip_addr_unspecified :=
  ⟨(c7_generic_conversions GenericAddress.neither Addr.default).1.mpr ⟨rfl, rfl⟩,
   (c7_generic_conversions (GenericAddress.v4 ⟨5⟩) Addr.default).2.1 ⟨5⟩ rfl,
   (c7_generic_conversions GenericAddress.neither Addr.default).2.2.2.1.mpr rfl⟩

/-- C8: `reset_ipv4_from_uint32` always succeeds on any starting state,
leaving the value tagged `V4` and equal to the IPv4 value built from the
32-bit integer, so that its rendered form is the dotted-quad text of the
integer. -/
theorem c8_reset_ipv4 (a : Addr) (raw : Nat) (h : raw < 4294967296) :
    Addr.reset_ipv4_from_uint32 a raw = Addr.v4 (IPv4.Addr.from_uint32 raw) ∧
    (Addr.reset_ipv4_from_uint32 a raw).ver = Version.V4 ∧
    (Addr.reset_ipv4_from_uint32 a raw).to_string = Except.ok
      (toString (raw / 16777216 % 256) ++ "." ++ toString (raw / 65536 % 256) ++ "." ++
        toString (raw / 256 % 256) ++ "." ++ toString (raw % 256)) := by
  refine ⟨rfl, rfl, ?_⟩
  unfold Addr.reset_ipv4_from_uint32 Addr.to_string Addr.to_stringWith
  simp [Addr.ver, Addr.to_asio, asioRender, IPv4.render, IPv4.Addr.from_uint32,
    Nat.mod_eq_of_lt h]

/-- C8, witness: resetting a `V6`-tagged value from the integer `16909060`
(`0x01020304`) yields a `V4`-tagged value rendering as `"1.2.3.4"`. -/
theorem c8_witness :
    16909060 < 4294967296 ∧
    Addr.reset_ipv4_from_uint32 (Addr.v6 ⟨7⟩) 16909060 =
      Addr.v4 (IPv4.Addr.from_uint32 16909060) ∧
    (Addr.reset_ipv4_from_uint32 (Addr.v6 ⟨7⟩) 16909060).ver = Version.V4 ∧
    (Addr.reset_ipv4_from_uint32 (Addr.v6 ⟨7⟩) 16909060).to_string = Except.ok "1.2.3.4" := by
  refine ⟨by decide, ?_⟩
  have h := c8_reset_ipv4 (Addr.v6 ⟨7⟩) 16909060 (by decide)
  exact ⟨h.1, h.2.1, h.2.2.trans (by decide)⟩

/-- C9: `unspecified` is true exactly when the tag is `Unspecified` or the
wrapped value's own all-zero check holds; in particular a
default-constructed `Addr` is unspecified and renders as `"UNSPEC"`. -/
theorem c9_unspecified (a : Addr) :
    (Addr.unspecified a = true ↔
      a.ver = Version.UNSPEC ∨
      (∃ x, a = Addr.v4 x ∧ IPv4.Addr.unspecified x = true) ∨
      (∃ x, a = Addr.v6 x ∧ IPv6.Addr.unspecified x = true)) ∧
    Addr.unspecified Addr.default = true ∧
    Addr.to_string Addr.default = Except.ok "UNSPEC" ∧
    (∀ x : IPv4.Addr, IPv4.Addr.unspecified x = true ↔ x.value = 0) ∧
    (∀ x : IPv6.Addr, IPv6.Addr.unspecified x = true ↔ x.value = 0) := by
  refine ⟨?_, rfl, rfl, ?_, ?_⟩
  · cases a <;> simp [Addr.unspecified, Addr.ver]
  · intro x
    simp [IPv4.Addr.unspecified]
  · intro x
    simp [IPv6.Addr.unspecified]

example : Addr.from_string "192.168.1.10" none = Except.ok (Addr.v4 ⟨3232235786⟩) := by decide

example : (Addr.v4 ⟨3232235786⟩).to_string = Except.ok "192.168.1.10" := by decide

example : normalized "1:2:3:4:5:6:7:8" = some "1:2:3:4:5:6:7:8" := by decide

example : parseAddress "not-an-ip" = none := by decide

end OpenVPN.IP
